import Mathlib

/-!
Shallow embedding of `pytorch-utils` (four Python modules: `generic_nn_model.py`,
`data_utils.py`, `metrics_utils.py`, `environment_vars_utils.py`) and proofs of the
spec's claims about it.  Machine floats of the source are modelled over `ℚ`;
Python exceptions are modelled with `Except PyErr`.
-/

set_option linter.unusedVariables false

/-- Python exceptions raised (or raisable) by the embedded code. -/
inductive PyErr where
  | typeError
  | nameError
  | valueError
  | fileNotFoundError
  | jsonDecodeError
  | zeroDivisionError
  | mountError
  deriving DecidableEq

/-! ## data_utils.py -/

/-- A torch optimizer handle as produced by `get_optimizer`. -/
inductive Optimizer where
  | SGD (lr : ℚ)
  | Adam (lr : ℚ)
  deriving DecidableEq

/-- data_utils.get_optimizer: returns `torch.optim.SGD` for `"SGD"`,
`torch.optim.Adam` for `"Adam"`, and raises `ValueError` on any other
`optimizer_type` string.  `model` is only forwarded to the optimizer
constructor (as `model.parameters()`), so it is kept abstract. -/
def get_optimizer {α : Type} (model : α) (optimizer_type : String) (lr : ℚ) :
    Except PyErr Optimizer :=
  if optimizer_type = "SGD" then .ok (.SGD lr)
  else if optimizer_type = "Adam" then .ok (.Adam lr)
  else .error .valueError

/-- torch.arange(start, end, step) for a positive step: the values
`start + i * step` for `0 ≤ i < ⌈(end - start) / step⌉`. -/
def torchArange (start stp step : ℚ) : List ℚ :=
  (List.range (Int.toNat ⌈(stp - start) / step⌉)).map (fun i : ℕ => start + (i : ℚ) * step)

/-- data_utils.get_linear_data: `X = torch.arange(0, 1, 0.01)` (the
`unsqueeze(dim=1)` only reshapes the 100 values into a column, so the values
are kept as a flat list) and `y = 0.7 * X + 0.3` elementwise. -/
def get_linear_data : List ℚ × List ℚ :=
  let weight : ℚ := 7/10
  let bias : ℚ := 3/10
  let X_regression := torchArange 0 1 (1/100)
  let y_regression := X_regression.map (fun x => weight * x + bias)
  (X_regression, y_regression)

/-- data_utils.accuracy_fn: `correct = torch.eq(y_true, y_pred).sum().item()`
(elementwise equality over the paired entries), then `correct / len(y_pred) * 100`;
`len(y_pred) == 0` would raise `ZeroDivisionError` in Python. -/
def accuracy_fn (y_true y_pred : List ℚ) : Except PyErr ℚ :=
  let correct : ℕ := (y_true.zip y_pred).countP (fun p => decide (p.1 = p.2))
  if y_pred.length = 0 then .error .zeroDivisionError
  else .ok ((correct : ℚ) / (y_pred.length : ℚ) * 100)

/-! ## metrics_utils.py

The module source has no `import` statement at all: every global name used in
its function bodies must resolve against the module namespace at call time,
and `torch` is not in it, so the bodies raise `NameError` at their first
statement. -/

/-- The names imported at the top of metrics_utils.py: the file begins directly
with the comment `# For simple accuracy` and contains no import statement. -/
def metricsUtilsImports : List String := []

/-- torch.argmax over one row: index of the first maximal entry. -/
def argmaxGo (bestIdx : ℕ) (bestVal : ℚ) (i : ℕ) : List ℚ → ℕ
  | [] => bestIdx
  | x :: xs => if bestVal < x then argmaxGo i x (i + 1) xs else argmaxGo bestIdx bestVal (i + 1) xs

/-- torch.argmax(row): the index of the first maximal value of the row
(0 on an empty row, where torch would raise instead). -/
def argmaxIdx : List ℚ → ℕ
  | [] => 0
  | x :: xs => argmaxGo 0 x 1 xs

/-- metrics_utils.simple_accuracy_fn as invoked at runtime: the body's first
statement evaluates `torch.eq(...)`; `torch` is looked up among the module's
imported names, which are empty, so the call raises `NameError`.  Were the
name resolvable, the body would compute `correct / len(y_pred) * 100` exactly
as data_utils.accuracy_fn does. -/
def simple_accuracy_fn (y_true y_pred : List ℚ) : Except PyErr ℚ :=
  if "torch" ∈ metricsUtilsImports then
    accuracy_fn y_true y_pred
  else .error .nameError

/-- The computation performed by the body of metrics_utils.multiclass_accuracy_fn:
`y_pred = torch.argmax(logits, dim=1)`, then `(y_true == y_pred).float().mean() * 100`. -/
def multiclass_accuracy_body (y_true : List ℕ) (logits : List (List ℚ)) : ℚ :=
  let y_pred := logits.map argmaxIdx
  let correct : ℕ := (y_true.zip y_pred).countP (fun p => decide (p.1 = p.2))
  (correct : ℚ) / (y_true.length : ℚ) * 100

/-- metrics_utils.multiclass_accuracy_fn as invoked at runtime: its first
statement evaluates `torch.argmax(...)` and `torch` is unresolvable in the
module namespace, so the call raises `NameError`. -/
def multiclass_accuracy_fn (y_true : List ℕ) (logits : List (List ℚ)) : Except PyErr ℚ :=
  if "torch" ∈ metricsUtilsImports then
    .ok (multiclass_accuracy_body y_true logits)
  else .error .nameError

/-- metrics_utils.pipeline_with_softmax_accuracy_fn as invoked at runtime: its
first statement evaluates `torch.softmax(...)`, raising `NameError` for the
same reason.  In the (dead) resolvable branch, softmax is strictly monotone on
each row, so `softmax(logits).argmax(dim=1)` picks the same indices as
`argmax(logits, dim=1)` and the body computes the same percentage. -/
def pipeline_with_softmax_accuracy_fn (y_true : List ℕ) (logits : List (List ℚ)) :
    Except PyErr ℚ :=
  if "torch" ∈ metricsUtilsImports then
    .ok (multiclass_accuracy_body y_true logits)
  else .error .nameError

/-! ## generic_nn_model.py -/

/-- An `nn.Module` object as handled by `GenericNeuralNetworkModel`: a linear
layer with its weight matrix and bias vector, or a `ReLU` activation module. -/
inductive NNModule where
  | linear (weight : List (List ℚ)) (bias : List ℚ)
  | relu
  deriving DecidableEq

/-- Dot product of two rational vectors. -/
def dot (u v : List ℚ) : ℚ := (List.zipWith (fun a b => a * b) u v).sum

/-- Evaluation of an `nn.Module` on an input vector: a linear layer computes
`W x + b` rowwise, `ReLU` clamps each entry at 0. -/
def applyModule : NNModule → List ℚ → List ℚ
  | .linear weight bias, x => (weight.zip bias).map (fun wb => dot wb.1 x + wb.2)
  | .relu, x => x.map (fun a => max a 0)

/-- The Python values flowing through `GenericNeuralNetworkModel.forward`:
`nn.Module` objects (layers, the activation), `None` (the default
`activation_fn`), `zip` iterators, and the closure built by `compose`. -/
inductive PyObj where
  | moduleObj (m : NNModule)
  | noneObj
  | zipObj
  | funcObj
  deriving DecidableEq

/-- Iterability of the values above: `nn.Module` defines no `__iter__`, and
neither does `None`; a `zip` object is itself iterable. -/
def isIterable : PyObj → Bool
  | .moduleObj _ => false
  | .noneObj => false
  | .zipObj => true
  | .funcObj => false

/-- Python `zip(a, b)`: constructing the zip object raises `TypeError` as soon
as one argument is not iterable. -/
def pyZip (a b : PyObj) : Except PyErr PyObj :=
  if isIterable a && isIterable b then .ok .zipObj else .error .typeError

/-- The model's `activation_fn` attribute as a Python value (`None` when absent). -/
def actToObj : Option NNModule → PyObj
  | some m => .moduleObj m
  | none => .noneObj

/-- generic_nn_model.compose: `reduce(lambda f, g: lambda x: g(f(x)), functions)`.
`reduce` without an initial value raises `TypeError` on an empty argument list;
otherwise it builds a nested closure without calling any of the arguments. -/
def composePy : List PyObj → Except PyErr PyObj
  | [] => .error .typeError
  | _ :: _ => .ok .funcObj

/-- GenericNeuralNetworkModel.forward, instrumented with the number of times
`activation_fn` is invoked during the call.  The body is
`compose(*([zip(layer, self.activation_fn) for layer in self.layers][:-1]))`:
the comprehension evaluates `zip(layer, activation_fn)` for each layer (both
arguments are non-iterable objects, so the first iteration raises `TypeError`),
`[:-1]` drops the last element, and `compose` is applied to what remains.  No
expression in the body ever calls `activation_fn` (zip and compose treat it as
data) and the closure `compose` returns is never applied to `x`, so the
invocation count is 0 on every path and `x` is unused. -/
def forwardCount (layers : List NNModule) (activation_fn : Option NNModule) (x : List ℚ) :
    Except PyErr PyObj × ℕ :=
  ((do
    let pairs ← layers.mapM (fun layer => pyZip (.moduleObj layer) (actToObj activation_fn))
    composePy pairs.dropLast), 0)

/-- GenericNeuralNetworkModel.forward: the value (or exception) of the call. -/
def forward (layers : List NNModule) (activation_fn : Option NNModule) (x : List ℚ) :
    Except PyErr PyObj :=
  (forwardCount layers activation_fn x).1

/-- The forward-pass semantics stated by the specification (§4.1): apply
L₁..Lₙ in order with the activation between every consecutive pair and none
after the last layer; with a single layer the activation is never used. -/
def specForward : List NNModule → Option NNModule → List ℚ → List ℚ
  | [], _, x => x
  | [l], _, x => applyModule l x
  | l :: ls@(_ :: _), act, x =>
      specForward ls act
        (match act with
         | some a => applyModule a (applyModule l x)
         | none => applyModule l x)

/-- generic_nn_model.LayerSpecs: input and output dimensions of one layer. -/
structure LayerSpecs where
  in_features : ℕ
  out_features : ℕ
  deriving DecidableEq

/-- The `layer_type` argument as a runtime value: the `LayerType` enum has the
single member `LINEAR`; any other value passed in compares unequal to it and
is carried here with its textual representation. -/
inductive LayerKind where
  | LINEAR
  | unrecognized (txt : String)
  deriving DecidableEq

/-- GenericNeuralNetworkModel._generate_layers, keeping both outcomes of the
loop: the list of layers built (in order) and the exception raised, if any.
The loop tests `layer_type == LayerType.LINEAR` separately in each iteration
and raises `ValueError` there on any other kind, so with a non-LINEAR kind the
first iteration raises before any layer is built, while an empty `specs` list
skips the loop entirely and returns an empty layer list without error.
`init` stands for torch's random initialisation of each `nn.Linear`'s weight
and bias from the spec's dimensions. -/
def generate_layers (init : LayerSpecs → List (List ℚ) × List ℚ) :
    List LayerSpecs → LayerKind → List NNModule × Option PyErr
  | [], _ => ([], none)
  | spec :: rest, kind =>
    match kind with
    | .LINEAR =>
      let wb := init spec
      let r := generate_layers init rest .LINEAR
      (.linear wb.1 wb.2 :: r.1, r.2)
    | .unrecognized _ => ([], some .valueError)

/-- A stand-in weight initialiser (all zeroes) for concrete instantiations. -/
def zeroInit : LayerSpecs → List (List ℚ) × List ℚ :=
  fun spec => ((List.range spec.out_features).map (fun _ => (List.range spec.in_features).map (fun _ => (0 : ℚ))),
               (List.range spec.out_features).map (fun _ => (0 : ℚ)))

/-! ## environment_vars_utils.py -/

/-- A value loaded by `json.load`. -/
inductive JsonVal where
  | str (s : String)
  | num (q : ℚ)
  | bool (b : Bool)
  | null
  | obj (kv : List (String × JsonVal))
  | arr (l : List JsonVal)

/-- Python `str()` of a json-loaded value, as applied when writing environment
values.  Scalars render as CPython renders them; for container values (which
never occur in the flat documents the claims quantify over) a structural
marker stands in for CPython's repr text. -/
def pyStr : JsonVal → String
  | .str s => s
  | .num q => toString q
  | .bool b => if b then "True" else "False"
  | .null => "None"
  | .obj _ => "<dict>"
  | .arr _ => "<list>"

/-- The json library's view of the file found at a path: `malformed` when
`json.load` raises `JSONDecodeError` (with the exception's message), `parsed`
when it returns a value. -/
inductive FileContent where
  | malformed (details : String)
  | parsed (v : JsonVal)

/-- os.environ[k] = v on an association-list environment: overwrite an
existing binding for k, else append a new one. -/
def envSet (env : List (String × String)) (k v : String) : List (String × String) :=
  if env.any (fun p => p.1 = k) then env.map (fun p => if p.1 = k then (k, v) else p)
  else env ++ [(k, v)]

/-- The loop `for key, value in config.items(): os.environ[str(key)] = str(value)`
(JSON object keys are already strings, so `str(key)` is the key itself). -/
def setEnvAll (env : List (String × String)) (kv : List (String × JsonVal)) :
    List (String × String) :=
  kv.foldl (fun e p => envSet e p.1 (pyStr p.2)) env

/-- The line printed for each key set. -/
def setMsg (key : String) : String := s!"Set environment variable: {key}"

/-- environment_vars_utils.setup_environment_from_json.  `mountOk` is the
outcome of the `drive.mount(...)` call made before the `try` block: mount
performs authentication and I/O and can raise, and such an exception is not
caught by the function.  `fs` maps a path to the json library's view of the
file there (`none` when `open` raises `FileNotFoundError`).  The `ValueError`
raised on a non-dict document is caught by the final `except Exception`
handler.  The result carries the returned value, the process environment
afterwards, and the printed diagnostic lines. -/
def setup_environment_from_json (mountOk : Bool) (fs : String → Option FileContent)
    (env : List (String × String)) (json_path : String) :
    Except PyErr (Option JsonVal × List (String × String) × List String) :=
  if mountOk = false then .error .mountError
  else
    match fs json_path with
    | none =>
        .ok (none, env,
          [s!"Error: Could not find config file at {json_path}",
           "Tip: Double-check your file path and make sure the file exists in Drive"])
    | some (.malformed details) =>
        .ok (none, env,
          ["Error: Your JSON file is not properly formatted", s!"Details: {details}"])
    | some (.parsed (.obj kv)) =>
        .ok (some (.obj kv), setEnvAll env kv, kv.map (fun p => setMsg p.1))
    | some (.parsed _) =>
        .ok (none, env,
          ["An unexpected error occurred: JSON file must contain a key-value object"])

/-! ## data_utils.split_to_tensor

`split_to_tensor` delegates to the third-party `train_test_split(X, y,
test_size, random_state)` and converts each part to `FloatTensor` (values
unchanged).  The library is modelled from its documented contract: with a
given `random_state` seed it deterministically shuffles the index range with
that seed's pseudo-random stream, takes `ceil(test_size * n)` indices as the
test part and the remaining indices as the training part, and applies the
same index split to `X` and to `y`. -/

/-- A deterministic linear-congruential pseudo-random step standing in for the
seeded random stream of the splitting library. -/
def lcg (s : ℕ) : ℕ := (s * 1103515245 + 12345) % 2 ^ 31

/-- Fisher-Yates-style shuffle driven by the seeded stream: while elements
remain, pick the position given by the stream, emit that element and continue
on the rest.  `fuel` bounds the recursion (callers pass the length). -/
def shuffleGo {α : Type} : ℕ → ℕ → List α → List α
  | 0, _, xs => xs
  | _ + 1, _, [] => []
  | fuel + 1, s, y :: ys =>
      let i : Fin (y :: ys).length := ⟨lcg s % (y :: ys).length, Nat.mod_lt _ (Nat.succ_pos _)⟩
      (y :: ys).get i :: shuffleGo fuel (lcg s) ((y :: ys).eraseIdx i)

/-- The seeded shuffle of a list. -/
def seededShuffle {α : Type} (seed : ℕ) (xs : List α) : List α :=
  shuffleGo xs.length seed xs

/-- The modelled `train_test_split`: shuffle the indices `0..n-1` with the
seed, split off `ceil(test_size * n)` of them for the test part, and read the
parts of `X` and `y` off the same index lists. -/
def train_test_split (X y : List ℚ) (test_size : ℚ) (random_state : ℕ) :
    List ℚ × List ℚ × List ℚ × List ℚ :=
  let n := X.length
  let n_test := Int.toNat ⌈test_size * (n : ℚ)⌉
  let perm := seededShuffle random_state (List.range n)
  let test_idx := perm.take n_test
  let train_idx := perm.drop n_test
  (train_idx.map (fun i => X.getD i 0), test_idx.map (fun i => X.getD i 0),
   train_idx.map (fun i => y.getD i 0), test_idx.map (fun i => y.getD i 0))

/-- data_utils.split_to_tensor: calls `train_test_split` and wraps each part
in `torch.FloatTensor`, which leaves the values themselves unchanged. -/
def split_to_tensor (X y : List ℚ) (test_size : ℚ) (random_state : ℕ) :
    List ℚ × List ℚ × List ℚ × List ℚ :=
  train_test_split X y test_size random_state

/-- A concrete two-layer stack (1 → 1 → 1, weights 2 and 3, biases 0 and 1)
used as failing input for the forward-pass claims. -/
def twoLayerStack : List NNModule := [.linear [[2]] [0], .linear [[3]] [1]]

/-- A concrete file store holding one well-formed flat configuration document. -/
def fs0 : String → Option FileContent :=
  fun p => if p = "cfg.json" then some (.parsed (.obj [("KEY", .str "v1")])) else none

/-! ## Helper lemmas -/

/-- Picking out the element at a valid index and prepending it to the list with
that index erased permutes the list. -/
theorem get_cons_eraseIdx_perm {α : Type} :
    ∀ (l : List α) (i : ℕ) (h : i < l.length), (l.get ⟨i, h⟩ :: l.eraseIdx i).Perm l := by
  intro l
  induction l with
  | nil => intro i h; simp at h
  | cons a t ih =>
    intro i h
    cases i with
    | zero => exact List.Perm.refl _
    | succ j =>
      have hj : j < t.length := by simpa using h
      exact (List.Perm.swap a _ _).trans ((ih j hj).cons a)

/-- The seeded shuffle emits a permutation of its input. -/
theorem shuffleGo_perm {α : Type} :
    ∀ (fuel s : ℕ) (xs : List α), (shuffleGo fuel s xs).Perm xs := by
  intro fuel
  induction fuel with
  | zero => intro s xs; exact List.Perm.refl _
  | succ n ih =>
    intro s xs
    cases xs with
    | nil => exact List.Perm.refl _
    | cons y ys =>
      exact ((ih (lcg s) _).cons _).trans (get_cons_eraseIdx_perm _ _ _)

/-- The seeded shuffle of a list is a permutation of it. -/
theorem seededShuffle_perm {α : Type} (seed : ℕ) (xs : List α) :
    (seededShuffle seed xs).Perm xs := shuffleGo_perm _ _ _

/-- Reading a list back off the full index range reproduces the list. -/
theorem map_getD_range {α : Type} (d : α) :
    ∀ l : List α, (List.range l.length).map (fun i => l.getD i d) = l := by
  intro l
  induction l with
  | nil => rfl
  | cons a t ih =>
    rw [List.length_cons, List.range_succ_eq_map, List.map_cons, List.map_map]
    have hcomp : ((fun i => (a :: t).getD i d) ∘ Nat.succ) = fun i => t.getD i d := by
      funext i
      simp
    rw [hcomp, ih]
    simp

/-- Reading a list off the two halves of a permuted index range, in either
order, permutes the list. -/
theorem split_index_maps_perm {α : Type} (d : α) (l : List α) (idx : List ℕ) (k : ℕ)
    (h : idx.Perm (List.range l.length)) :
    ((idx.drop k).map (fun i => l.getD i d) ++ (idx.take k).map (fun i => l.getD i d)).Perm l := by
  rw [← List.map_append]
  have h1 : (idx.drop k ++ idx.take k).Perm idx :=
    List.perm_append_comm.trans (by rw [List.take_append_drop])
  have h2 := (h1.trans h).map (fun i => l.getD i d)
  rwa [map_getD_range d l] at h2

/-- The arange underlying the linear-data generator, in closed form. -/
theorem arange_unit_eq :
    torchArange 0 1 (1/100) = (List.range 100).map (fun j : ℕ => (j : ℚ) / 100) := by
  unfold torchArange
  have hq : ((1 : ℚ) - 0) / (1/100) = 100 := by norm_num
  have hc : Int.toNat ⌈((1 : ℚ) - 0) / (1/100)⌉ = 100 := by
    rw [hq]
    decide
  rw [hc]
  apply List.map_congr_left
  intro i hi
  ring

/-- Setting a key makes it readable with exactly the written value. -/
theorem envSet_cons_ne (p : String × String) (rest : List (String × String)) (k v : String)
    (hp : p.1 ≠ k) : envSet (p :: rest) k v = p :: envSet rest k v := by
  unfold envSet
  by_cases h : rest.any (fun q => q.1 = k) <;> simp [List.any_cons, hp, h]

/-- Looking up a key right after setting it yields the written value. -/
theorem envSet_lookup_self (k v : String) :
    ∀ env : List (String × String), (envSet env k v).lookup k = some v := by
  intro env
  induction env with
  | nil => simp [envSet, List.lookup]
  | cons p rest ih =>
    by_cases hp : p.1 = k
    · unfold envSet
      simp [List.any_cons, hp, List.lookup]
    · rw [envSet_cons_ne p rest k v hp]
      simp [List.lookup, show (k == p.1) = false by simpa using fun h => hp h.symm]
      exact ih

/-- Overwriting the bindings of one key leaves lookups of other keys unchanged. -/
theorem lookup_map_set_ne (k v k' : String) (hk : k' ≠ k) :
    ∀ env : List (String × String),
      (env.map (fun p => if p.1 = k then (k, v) else p)).lookup k' = env.lookup k' := by
  intro env
  induction env with
  | nil => rfl
  | cons q rest ih =>
    obtain ⟨q1, q2⟩ := q
    by_cases hq : q1 = k
    · subst hq
      simp only [List.map_cons, if_pos rfl]
      simp [List.lookup, show (k' == q1) = false by simpa using hk, ih]
    · by_cases hq' : q1 = k'
      · subst hq'
        simp only [List.map_cons, if_neg hq]
        simp [List.lookup]
      · simp only [List.map_cons, if_neg hq]
        simp [List.lookup, show (k' == q1) = false by simpa using fun h => hq' h.symm, ih]

/-- Setting one key leaves lookups of other keys unchanged. -/
theorem envSet_lookup_ne (k v k' : String) (hk : k' ≠ k) (env : List (String × String)) :
    (envSet env k v).lookup k' = env.lookup k' := by
  unfold envSet
  by_cases h : env.any (fun q => q.1 = k)
  · simp [h, lookup_map_set_ne k v k' hk]
  · have hone : List.lookup k' [(k, v)] = none := by
      simp [List.lookup, show (k' == k) = false by simpa using hk]
    simp [h, List.lookup_append, hone]

/-- Setting a batch of keys leaves lookups of keys outside the batch unchanged. -/
theorem setEnvAll_lookup_not_mem (k : String) :
    ∀ (kv : List (String × JsonVal)) (env : List (String × String)),
      k ∉ kv.map Prod.fst → (setEnvAll env kv).lookup k = env.lookup k := by
  intro kv
  induction kv with
  | nil => intro env h; rfl
  | cons q rest ih =>
    intro env h
    have hq : k ≠ q.1 := fun he => h (by simp [he])
    have hr : k ∉ rest.map Prod.fst := fun hm => h (by simp [hm])
    show (setEnvAll (envSet env q.1 (pyStr q.2)) rest).lookup k = _
    rw [ih _ hr, envSet_lookup_ne q.1 (pyStr q.2) k hq]

/-- After setting a batch of keys with distinct names, every key of the batch
reads back as the string coercion of its value. -/
theorem setEnvAll_lookup_mem :
    ∀ (kv : List (String × JsonVal)) (env : List (String × String)),
      (kv.map Prod.fst).Nodup →
      ∀ p ∈ kv, (setEnvAll env kv).lookup p.1 = some (pyStr p.2) := by
  intro kv
  induction kv with
  | nil => intro env hnd p hp; simp at hp
  | cons q rest ih =>
    intro env hnd p hp
    have hnd' : (rest.map Prod.fst).Nodup := (List.nodup_cons.mp (by simpa using hnd)).2
    rcases List.mem_cons.mp hp with he | hm
    · subst he
      have hq : p.1 ∉ rest.map Prod.fst := (List.nodup_cons.mp (by simpa using hnd)).1
      show (setEnvAll (envSet env p.1 (pyStr p.2)) rest).lookup p.1 = _
      rw [setEnvAll_lookup_not_mem p.1 rest _ hq, envSet_lookup_self]
    · exact ih _ hnd' p hm

/-! ## Claim theorems -/

/-- C1 (code bug evidence): the claim says the forward pass on input x returns
Lₙ(A(Lₙ₋₁(…A(L₁(x))…))).  On the concrete two-layer stack with ReLU the source's
forward instead raises TypeError — `zip(layer, activation_fn)` is applied to
non-iterable `nn.Module` objects and the result of `compose` is never applied
to x — while the spec's alternation semantics yields L₂(A(L₁(x))) = [7]. -/
theorem forward_diverges_from_spec_c1 :
    forward twoLayerStack (some .relu) [1] = .error .typeError ∧
    specForward twoLayerStack (some .relu) [1] = [7] :=
  ⟨rfl, by norm_num [twoLayerStack, specForward, applyModule, dot]⟩

/-- C2 (code bug evidence): the claim says a forward pass of an n-layer stack
(n ≥ 2) invokes the activation exactly n-1 times.  On the two-layer stack the
source's forward invokes it 0 times — the body treats `activation_fn` as data
for `zip` and raises TypeError before anything is applied — and 0 ≠ n-1. -/
theorem forward_activation_count_c2 :
    (forwardCount twoLayerStack (some .relu) [1]).2 = 0 ∧
    (forwardCount twoLayerStack (some .relu) [1]).2 ≠ twoLayerStack.length - 1 := by
  decide

/-- C3 counterexample: with an empty descriptor list and an unrecognized layer
kind, `_generate_layers` raises nothing and returns an empty layer list — the
kind check sits inside the per-descriptor loop, so the claimed
ConfigurationError never happens for the empty list. -/
theorem empty_specs_bad_kind_no_error_c3 :
    generate_layers zeroInit [] (.unrecognized "conv") = ([], none) := rfl

/-- C3 (amended): for every NONEMPTY descriptor list, constructing a stack with
an unrecognized layer kind fails with a ConfigurationError (ValueError) in the
first loop iteration, before any layer is built: zero layers are constructed
and no partial state is left behind. -/
theorem bad_kind_raises_before_layers_c3 (init : LayerSpecs → List (List ℚ) × List ℚ)
    (specs : List LayerSpecs) (txt : String) (h : specs ≠ []) :
    generate_layers init specs (.unrecognized txt) = ([], some .valueError) := by
  cases specs with
  | nil => exact absurd rfl h
  | cons a l => rfl

/-- Witness for C3's amended theorem at a one-descriptor list. -/
theorem bad_kind_raises_before_layers_c3_witness :
    ([LayerSpecs.mk 2 3] ≠ ([] : List LayerSpecs)) ∧
    generate_layers zeroInit [LayerSpecs.mk 2 3] (.unrecognized "conv") = ([], some .valueError) :=
  ⟨by decide, bad_kind_raises_before_layers_c3 zeroInit [LayerSpecs.mk 2 3] "conv" (by decide)⟩

/-- C4: get_optimizer returns an optimizer handle for kind "SGD" and for kind
"Adam", and fails with a ConfigurationError (ValueError) for every other kind
string. -/
theorem get_optimizer_c4 {α : Type} (model : α) (lr : ℚ) (kind : String)
    (hS : kind ≠ "SGD") (hA : kind ≠ "Adam") :
    get_optimizer model "SGD" lr = .ok (.SGD lr) ∧
    get_optimizer model "Adam" lr = .ok (.Adam lr) ∧
    get_optimizer model kind lr = .error .valueError := by
  refine ⟨rfl, ?_, ?_⟩
  · simp [get_optimizer]
  · simp [get_optimizer, hS, hA]

/-- Witness for C4 at kind = "RMSProp": it raises the ConfigurationError. -/
theorem get_optimizer_c4_witness :
    ("RMSProp" : String) ≠ "SGD" ∧ ("RMSProp" : String) ≠ "Adam" ∧
    get_optimizer () "RMSProp" (1/100) = .error .valueError :=
  ⟨by decide, by decide, (get_optimizer_c4 () (1/100) "RMSProp" (by decide) (by decide)).2.2⟩

/-- C5: the linear-data generator returns two equal-length sequences of exactly
100 points, with X[i] = i/100 (so X runs from 0.0 up to, excluding, 1.0 in
steps of 0.01) and y[i] = 0.7 * X[i] + 0.3 pointwise; the first point is
(0, 0.3) and the last (0.99, 0.993). -/
theorem linear_data_c5 (i : ℕ) (hi : i < 100) :
    get_linear_data.1.length = 100 ∧ get_linear_data.2.length = 100 ∧
    get_linear_data.1[i]? = some ((i : ℚ) / 100) ∧
    get_linear_data.2[i]? = some ((7 : ℚ) / 10 * ((i : ℚ) / 100) + 3 / 10) ∧
    get_linear_data.1[0]? = some 0 ∧ get_linear_data.2[0]? = some (3/10) ∧
    get_linear_data.1[99]? = some (99/100) ∧ get_linear_data.2[99]? = some (993/1000) := by
  have hX : get_linear_data.1 = (List.range 100).map (fun j : ℕ => (j : ℚ) / 100) := arange_unit_eq
  have hY : get_linear_data.2 =
      (List.range 100).map (fun j : ℕ => (7 : ℚ) / 10 * ((j : ℚ) / 100) + 3 / 10) := by
    show (torchArange 0 1 (1/100)).map _ = _
    rw [arange_unit_eq, List.map_map]
    rfl
  refine ⟨by simp [hX], by simp [hY], ?_, ?_, ?_, ?_, ?_, ?_⟩
  · rw [hX, List.getElem?_map, List.getElem?_range hi]
    rfl
  · rw [hY, List.getElem?_map, List.getElem?_range hi]
    rfl
  · rw [hX, List.getElem?_map, List.getElem?_range (by norm_num : (0:ℕ) < 100)]
    norm_num
  · rw [hY, List.getElem?_map, List.getElem?_range (by norm_num : (0:ℕ) < 100)]
    norm_num
  · rw [hX, List.getElem?_map, List.getElem?_range (by norm_num : (99:ℕ) < 100)]
    norm_num
  · rw [hY, List.getElem?_map, List.getElem?_range (by norm_num : (99:ℕ) < 100)]
    norm_num

/-- Witness for C5 at i = 99. -/
theorem linear_data_c5_witness :
    (99 : ℕ) < 100 ∧ get_linear_data.1[(99 : ℕ)]? = some (((99 : ℕ) : ℚ) / 100) :=
  ⟨by decide, (linear_data_c5 99 (by decide)).2.2.1⟩

/-- C6: two calls of the split utility with the same inputs and the same seed
yield identical partitions, and the train and test parts always partition the
input — concatenated they are a permutation of X (respectively y) and their
sizes sum to the input size. -/
theorem split_same_seed_partitions_c6 (X y : List ℚ) (test_size : ℚ) (s₁ s₂ : ℕ)
    (hs : s₁ = s₂) (hy : y.length = X.length) :
    split_to_tensor X y test_size s₁ = split_to_tensor X y test_size s₂ ∧
    ((split_to_tensor X y test_size s₁).1 ++
      (split_to_tensor X y test_size s₁).2.1).Perm X ∧
    ((split_to_tensor X y test_size s₁).2.2.1 ++
      (split_to_tensor X y test_size s₁).2.2.2).Perm y ∧
    (split_to_tensor X y test_size s₁).1.length +
      (split_to_tensor X y test_size s₁).2.1.length = X.length ∧
    (split_to_tensor X y test_size s₁).2.2.1.length +
      (split_to_tensor X y test_size s₁).2.2.2.length = y.length := by
  subst hs
  have hXperm :
      ((split_to_tensor X y test_size s₁).1 ++ (split_to_tensor X y test_size s₁).2.1).Perm X :=
    split_index_maps_perm 0 X (seededShuffle s₁ (List.range X.length)) _
      (seededShuffle_perm _ _)
  have hyrange : (seededShuffle s₁ (List.range X.length)).Perm (List.range y.length) := by
    rw [hy]; exact seededShuffle_perm _ _
  have hYperm :
      ((split_to_tensor X y test_size s₁).2.2.1 ++
        (split_to_tensor X y test_size s₁).2.2.2).Perm y :=
    split_index_maps_perm 0 y (seededShuffle s₁ (List.range X.length)) _ hyrange
  refine ⟨rfl, hXperm, hYperm, ?_, ?_⟩
  · have := hXperm.length_eq
    rwa [List.length_append] at this
  · have := hYperm.length_eq
    rwa [List.length_append] at this

/-- Witness for C6 on a concrete 5-point data set with seed 42. -/
theorem split_c6_witness :
    (([10, 20, 30, 40, 50] : List ℚ).length = ([1, 2, 3, 4, 5] : List ℚ).length) ∧
    ((split_to_tensor [1, 2, 3, 4, 5] [10, 20, 30, 40, 50] (1/5) 42).1 ++
      (split_to_tensor [1, 2, 3, 4, 5] [10, 20, 30, 40, 50] (1/5) 42).2.1).Perm
      [1, 2, 3, 4, 5] :=
  ⟨by decide,
   (split_same_seed_partitions_c6 [1, 2, 3, 4, 5] [10, 20, 30, 40, 50] (1/5) 42 42 rfl
     (by decide)).2.1⟩

/-- C7 (code bug evidence): on y_true=[1,0,1,1], y_pred=[1,0,0,1] the
metrics_utils simple accuracy raises NameError (the module never imports
torch) instead of returning 75.0, while data_utils.accuracy_fn — the identical
body in a module that does import torch — returns exactly 75. -/
theorem simple_accuracy_c7 :
    simple_accuracy_fn [1, 0, 1, 1] [1, 0, 0, 1] = .error .nameError ∧
    accuracy_fn [1, 0, 1, 1] [1, 0, 0, 1] = .ok 75 :=
  ⟨rfl, by norm_num [accuracy_fn, List.countP, List.countP.go]⟩

/-- C8 (code bug evidence): on logits [[2,1],[0,3]] with truth [0,1] the
multiclass accuracy call raises NameError (torch is not imported in
metrics_utils), while the argmax-then-compare computation of its body yields
exactly 100. -/
theorem multiclass_accuracy_c8 :
    multiclass_accuracy_fn [0, 1] [[2, 1], [0, 3]] = .error .nameError ∧
    multiclass_accuracy_body [0, 1] [[2, 1], [0, 3]] = 100 :=
  ⟨rfl, by norm_num [multiclass_accuracy_body, argmaxIdx, argmaxGo, List.countP, List.countP.go]⟩

/-- C9 counterexample: when the `drive.mount` call made before the try block
fails, its exception escapes `setup_environment_from_json` — the claim that no
exception ever escapes is false. -/
theorem mount_failure_escapes_c9 :
    setup_environment_from_json false (fun _ => none) [] "config.json" = .error .mountError := rfl

/-- C9 (amended): provided the drive mount succeeds, the bootstrap never lets
an exception escape; an absent path or malformed content returns None together
with a human-readable diagnostic, and a well-formed flat key-value document
sets every key into the process environment with its value coerced to a
string and returns the parsed document. -/
theorem setup_env_recoverable_c9 (fs : String → Option FileContent)
    (env : List (String × String)) (json_path : String) :
    (setup_environment_from_json true fs env json_path).isOk = true ∧
    (fs json_path = none →
      setup_environment_from_json true fs env json_path =
        .ok (none, env,
          [s!"Error: Could not find config file at {json_path}",
           "Tip: Double-check your file path and make sure the file exists in Drive"])) ∧
    (∀ details, fs json_path = some (.malformed details) →
      setup_environment_from_json true fs env json_path =
        .ok (none, env,
          ["Error: Your JSON file is not properly formatted", s!"Details: {details}"])) ∧
    (∀ kv, fs json_path = some (.parsed (.obj kv)) →
      setup_environment_from_json true fs env json_path =
        .ok (some (.obj kv), setEnvAll env kv, kv.map (fun p => setMsg p.1)) ∧
      ((kv.map Prod.fst).Nodup →
        ∀ p ∈ kv, (setEnvAll env kv).lookup p.1 = some (pyStr p.2))) := by
  refine ⟨?_, ?_, ?_, ?_⟩
  · cases hf : fs json_path with
    | none => simp [setup_environment_from_json, hf, Except.isOk, Except.toBool]
    | some c =>
      cases c with
      | malformed d => simp [setup_environment_from_json, hf, Except.isOk, Except.toBool]
      | parsed v => cases v <;> simp [setup_environment_from_json, hf, Except.isOk, Except.toBool]
  · intro h
    simp [setup_environment_from_json, h]
  · intro details h
    simp [setup_environment_from_json, h]
  · intro kv h
    exact ⟨by simp [setup_environment_from_json, h],
           fun hnd p hp => setEnvAll_lookup_mem kv env hnd p hp⟩

/-- Witness for C9's amended theorem on a one-key document: the call returns
the parsed document and the environment afterwards maps the key to the
string-coerced value. -/
theorem setup_env_recoverable_c9_witness :
    setup_environment_from_json true fs0 [] "cfg.json" =
      .ok (some (.obj [("KEY", .str "v1")]), setEnvAll [] [("KEY", .str "v1")], [setMsg "KEY"]) ∧
    (setEnvAll [] [("KEY", .str "v1")]).lookup "KEY" = some "v1" := by
  have h := (setup_env_recoverable_c9 fs0 [] "cfg.json").2.2.2 [("KEY", .str "v1")] (by simp [fs0])
  refine ⟨by simpa using h.1, ?_⟩
  have := h.2 (by simp) ("KEY", .str "v1") (by simp)
  simpa [pyStr] using this

/-- C10: every call of simple_accuracy_fn, multiclass_accuracy_fn or
pipeline_with_softmax_accuracy_fn raises NameError on every input, because
each body references the global name torch and metrics_utils.py never imports
it; no metric value is ever returned. -/
theorem metrics_raise_nameerror_c10 (a b : List ℚ) (c : List ℕ) (d : List (List ℚ)) :
    simple_accuracy_fn a b = .error .nameError ∧
    multiclass_accuracy_fn c d = .error .nameError ∧
    pipeline_with_softmax_accuracy_fn c d = .error .nameError :=
  ⟨rfl, rfl, rfl⟩
